import Mathlib

/-
  Verification development for the HAIoT_SmartMeter configuration and
  secret-storage core (src/sys_crypto.h, src/sys_config.h,
  src/sys_serial_utils.h).

  Modelling conventions:
  * Arduino `String` values are modelled as `List Nat` of byte values.
    The Arduino `String` type maintains a NUL-terminated buffer whose
    length equals `strlen`, so a `String` never contains a 0 byte; where
    a theorem needs that invariant it appears as an explicit hypothesis.
    The C idiom `String(charBuffer)` (used at the end of
    `decryptSecret`) truncates at the first NUL byte and is modelled by
    `cstr`.
  * The external cryptographic libraries (mbedtls AES-256-CBC,
    mbedtls Base64, SHA-256) are collaborators outside this repository;
    they are passed as function parameters (`aesEnc`, `aesDec`,
    `b64enc`, `b64dec`, `sha256`) and their documented contracts appear
    as hypotheses (for instance `b64dec (b64enc x) = some x`).  The
    embedding follows the ESP32 (mbedtls) build, the primary target:
    there `mbedtls_aes_crypt_cbc` in decrypt mode returns an error
    exactly when the input length is not a multiple of 16, which the
    source checks and converts into returning the original data.
  * `preferences.getString(key, "")` yields `""` both for an absent key
    and for an empty stored value, so the stored entry is a single
    `List Nat` where `[]` means absent.
  * The blocking serial prompt loop is modelled with an explicit fuel
    argument and a stream `inputs : Nat → List Nat` of operator
    responses; a result of `none` means the loop was still running when
    the fuel ran out (for every fuel, with all-empty operator input,
    the mandatory loop of the source never terminates).
-/

namespace SmartMeter

/-- Byte strings: each element is one byte value. -/
abbrev Bytes := List Nat

/-! ## sys_crypto.h : deriveHardwareKey -/

/-- The compiled-in salt string "HAIoT_SALT" (10 bytes), fed to SHA-256
after the identity bytes in `deriveHardwareKey`. -/
def saltBytes : Bytes := [72, 65, 73, 111, 84, 95, 83, 65, 76, 84]

/-- Little-endian byte serialisation of a 64-bit value, as produced by
`(const unsigned char*)&chipID, sizeof(chipID)` on the little-endian
targets of this firmware. -/
def le64 (n : Nat) : Bytes := (List.range 8).map (fun i => n / 256 ^ i % 256)

/-- The hardcoded fallback chip identity `0xDEADBEEFCAFEBABE` used when
neither the ECC608 serial number nor the ESP32 eFuse MAC is available
(src/sys_crypto.h line 138). -/
def fallbackChipID : Nat := 0xDEADBEEFCAFEBABE

/-- Embedding of `deriveHardwareKey` (src/sys_crypto.h lines 109-163).
`hwSerial` is the ECC608 serial number when the secure element is
present and readable (SAMD path), `espMac` is the ESP32 eFuse MAC when
running on an ESP32.  Returns the pair (return value of the C function,
bytes fed to SHA-256 to produce `derivedAESKey`).  The function ends
with `return true` unconditionally; when both identity sources are
absent it hashes the fixed constant instead of failing. -/
def deriveHardwareKey (sha256 : Bytes → Bytes) (hwSerial : Option Bytes)
    (espMac : Option Nat) : Bool × Bytes :=
  match hwSerial with
  | some serial => (true, sha256 (serial ++ saltBytes))
  | none =>
    let chipID := match espMac with
      | some mac => mac
      | none => fallbackChipID
    (true, sha256 (le64 chipID ++ saltBytes))

/-! ## sys_crypto.h : encryptSecret / decryptSecret -/

/-- PKCS7 padding exactly as in `encryptSecret` (src/sys_crypto.h lines
190-196): `paddedLen = ((len / 16) + 1) * 16` and every added byte
holds the pad count `paddedLen - len`. -/
def pkcs7pad (s : Bytes) : Bytes :=
  let len := s.length
  let paddedLen := (len / 16 + 1) * 16
  let padding := paddedLen - len
  s ++ List.replicate padding padding

/-- Truncation at the first NUL byte, the effect of the C idiom
`String(charBuffer)` on a buffer that may contain an embedded 0. -/
def cstr (s : Bytes) : Bytes := s.takeWhile (fun b => b ≠ 0)

/-- Embedding of `encryptSecret` (src/sys_crypto.h lines 173-234),
ESP32 build.  `keyOk` is the return value of `deriveHardwareKey` (the
source guards `if (!deriveHardwareKey()) return plaintext;`), `aesEnc`
is `mbedtls_aes_crypt_cbc` in encrypt mode applied with the derived key
(taking the IV and the padded input), `b64enc` is
`mbedtls_base64_encode`, and `iv` is the freshly generated random
16-byte IV, made an explicit argument. -/
def encryptSecret (keyOk : Bool) (aesEnc : Bytes → Bytes → Bytes)
    (b64enc : Bytes → Bytes) (iv : Bytes) (plaintext : Bytes) : Bytes :=
  if keyOk = false then plaintext
  else
    let input := pkcs7pad plaintext
    let output := aesEnc iv input
    b64enc (iv ++ output)

/-- Embedding of `decryptSecret` (src/sys_crypto.h lines 244-305),
ESP32 build.  `b64dec` is `mbedtls_base64_decode` (`none` models a
nonzero error return), `aesDec` is `mbedtls_aes_crypt_cbc` in decrypt
mode with the derived key.  The branch on `(payload.length - 16) % 16`
models the error return of `mbedtls_aes_crypt_cbc`, which rejects
exactly the lengths that are not a multiple of the AES block size; the
source turns that error into `return base64Data`.  The final
`String(finalString)` constructor truncates at the first NUL byte,
modelled by `cstr`. -/
def decryptSecret (keyOk : Bool) (aesDec : Bytes → Bytes → Bytes)
    (b64dec : Bytes → Option Bytes) (base64Data : Bytes) : Bytes :=
  if keyOk = false then base64Data
  else
    match b64dec base64Data with
    | none => base64Data
    | some payload =>
      if payload.length < 16 + 16 then base64Data
      else
        let iv := payload.take 16
        let input := payload.drop 16
        if input.length % 16 ≠ 0 then base64Data
        else
          let output := aesDec iv input
          let padding := output.getD (input.length - 1) 0
          if padding > 16 ∨ padding = 0 then base64Data
          else cstr (output.take (input.length - padding))

/-! ## Spec-side decryption descriptions (for the refinement claim C7) -/

/-- Failure taxonomy of the specification for `Codec.decrypt`
(`DecodeFailure::BadEncoding`, `Truncated`, `BadPadding`), plus
`badLength` for the block-length failure present in the code but absent
from the specification text. -/
inductive DecodeFailure where
  | badEncoding
  | truncated
  | badLength
  | badPadding
deriving DecidableEq, Repr

/-- Written from the claim and spec wording for `Codec.decrypt`:
Base64-decode (fail closed on malformed input); require decoded length
at least 32 bytes else truncated; split IV / ciphertext and AES-CBC
decrypt; read the trailing pad byte, failing when it is 0 or greater
than 16; otherwise strip that many bytes and return the remainder.
This description has no block-length check and no NUL truncation. -/
def codecDecryptClaim (aesDec : Bytes → Bytes → Bytes)
    (b64dec : Bytes → Option Bytes) (packet : Bytes) :
    Except DecodeFailure Bytes :=
  match b64dec packet with
  | none => .error .badEncoding
  | some payload =>
    if payload.length < 32 then .error .truncated
    else
      let output := aesDec (payload.take 16) (payload.drop 16)
      let padByte := output.getD (payload.length - 16 - 1) 0
      if padByte > 16 ∨ padByte = 0 then .error .badPadding
      else .ok (output.take (payload.length - 16 - padByte))

/-- The amended spec-side description of `Codec.decrypt`: identical to
`codecDecryptClaim` except for the two corrections the code forces —
a ciphertext whose length (after removing the IV) is not a multiple of
16 is rejected (`badLength`, the AES-CBC error path), and the returned
remainder is truncated at the first NUL byte (C-string construction). -/
def codecDecrypt (aesDec : Bytes → Bytes → Bytes)
    (b64dec : Bytes → Option Bytes) (packet : Bytes) :
    Except DecodeFailure Bytes :=
  match b64dec packet with
  | none => .error .badEncoding
  | some payload =>
    if payload.length < 32 then .error .truncated
    else if (payload.length - 16) % 16 ≠ 0 then .error .badLength
    else
      let output := aesDec (payload.take 16) (payload.drop 16)
      let padByte := output.getD (payload.length - 16 - 1) 0
      if padByte > 16 ∨ padByte = 0 then .error .badPadding
      else .ok (cstr (output.take (payload.length - 16 - padByte)))

/-! ## sys_serial_utils.h and sys_config.h -/

/-- Embedding of `promptAndReadLine` (src/sys_serial_utils.h lines
57-72): the operator line is returned unless it is empty, in which case
the default value is returned. -/
def promptAndReadLine (defaultValue userLine : Bytes) : Bytes :=
  if userLine.length = 0 then defaultValue else userLine

/-- The tag `"p1:"` marking plaintext stored values
(src/sys_config.h line 32). -/
def HEADER_PLAIN_V1 : Bytes := [112, 49, 58]

/-- The tag `"s1:"` marking encrypted stored values
(src/sys_config.h line 33). -/
def HEADER_SECRET_V1 : Bytes := [115, 49, 58]

/-- Arduino `String.startsWith` on byte strings. -/
def startsWith (pre s : Bytes) : Bool := decide (s.take pre.length = pre)

/-- Step 1 of `loadConfig` (src/sys_config.h lines 108-126): detect the
stored format and extract the raw value, returning the pair
(`value`, `migrationNeeded`).  `rawValue = []` models an absent entry
(`preferences.getString` default). -/
def classifyRaw (keyOk : Bool) (aesDec : Bytes → Bytes → Bytes)
    (b64dec : Bytes → Option Bytes) (rawValue defaultValue : Bytes)
    (isSecret : Bool) : Bytes × Bool :=
  if rawValue = [] then
    (defaultValue, decide (defaultValue ≠ []))
  else if startsWith HEADER_SECRET_V1 rawValue then
    (decryptSecret keyOk aesDec b64dec (rawValue.drop HEADER_SECRET_V1.length),
     !isSecret)
  else if startsWith HEADER_PLAIN_V1 rawValue then
    (rawValue.drop HEADER_PLAIN_V1.length, isSecret)
  else
    (rawValue, true)

/-- The `while (value == "")` prompt loop of `loadConfig`
(src/sys_config.h lines 135-146), with explicit fuel.  `inputs i` is
the operator's raw serial line on the i-th prompt; each iteration runs
`promptAndReadLine` with the current default and either loops (value
still empty and mandatory) or breaks having set `migrationNeeded`
to true.  `none` means the loop had not terminated when the fuel ran
out. -/
def promptLoop (mandatory : Bool) (defaultValue : Bytes)
    (inputs : Nat → Bytes) (idx : Nat) : Nat → Option (Bytes × Bool)
  | 0 => none
  | fuel + 1 =>
    let v := promptAndReadLine defaultValue (inputs idx)
    if mandatory && decide (v = []) then
      promptLoop mandatory defaultValue inputs (idx + 1) fuel
    else
      some (v, true)

/-- Step 2 of `loadConfig` (src/sys_config.h lines 148-158): when
migration is needed, build `valueToSave` (encrypted with the `"s1:"`
tag only when the parameter is secret and the value non-empty,
otherwise `"p1:"`-tagged plaintext) and call `preferences.putString`.
`none` means `putString` is not called at all. -/
def saveValue (keyOk : Bool) (aesEnc : Bytes → Bytes → Bytes)
    (b64enc : Bytes → Bytes) (iv : Bytes) (isSecret : Bool)
    (value : Bytes) (migrationNeeded : Bool) : Option Bytes :=
  if migrationNeeded then
    some (if isSecret && decide (value ≠ []) then
            HEADER_SECRET_V1 ++ encryptSecret keyOk aesEnc b64enc iv value
          else
            HEADER_PLAIN_V1 ++ value)
  else none

/-- Result of one `loadConfig` call: the returned value and the
argument of the `putString` call, if any. -/
structure LoadOutcome where
  value : Bytes
  write : Option Bytes
deriving DecidableEq, Repr

/-- Embedding of `loadConfig` (src/sys_config.h lines 102-161).
`stored` is the raw string currently held by the backend for the key
(`[]` when absent), `iv` the random IV a potential encryption would
use, `inputs` the operator's responses, `fuel` bounds the blocking
prompt loop (`none` = the loop was still running).  The `force` branch
(lines 128-132) moves the decoded value into the default and clears
the value so the prompt runs. -/
def loadConfig (keyOk : Bool) (aesEnc aesDec : Bytes → Bytes → Bytes)
    (b64enc : Bytes → Bytes) (b64dec : Bytes → Option Bytes) (iv : Bytes)
    (stored defaultValue : Bytes) (mandatory force isSecret : Bool)
    (inputs : Nat → Bytes) (fuel : Nat) : Option LoadOutcome :=
  let c := classifyRaw keyOk aesDec b64dec stored defaultValue isSecret
  let dv := if force then c.1 else defaultValue
  let v0 := if force then [] else c.1
  let afterLoop :=
    if v0 = [] then promptLoop mandatory dv inputs 0 fuel
    else some (v0, c.2)
  afterLoop.map (fun vm =>
    ⟨vm.1, saveValue keyOk aesEnc b64enc iv isSecret vm.1 vm.2⟩)

/-- Metadata for a configuration parameter
(src/sys_config.h lines 46-52); the storage key is kept as bytes. -/
structure ConfigParam where
  key : Bytes
  mandatory : Bool
  isSecret : Bool
  isConfigurable : Bool

/-- The `loadConfig(ConfigParam, ...)` overload (src/sys_config.h lines
166-170): the global reconfigure intent is combined with the
parameter's own `isConfigurable` capability. -/
def loadConfigParam (keyOk : Bool) (aesEnc aesDec : Bytes → Bytes → Bytes)
    (b64enc : Bytes → Bytes) (b64dec : Bytes → Option Bytes) (iv : Bytes)
    (param : ConfigParam) (stored defaultValue : Bytes) (force : Bool)
    (inputs : Nat → Bytes) (fuel : Nat) : Option LoadOutcome :=
  loadConfig keyOk aesEnc aesDec b64enc b64dec iv stored defaultValue
    param.mandatory (force && param.isConfigurable) param.isSecret inputs fuel

/-- `PARAM_DEVICE_ID` (src/sys_config.h line 56): key `"dvc_id"`,
mandatory, not secret, configurable. -/
def PARAM_DEVICE_ID : ConfigParam :=
  ⟨[100, 118, 99, 95, 105, 100], true, false, true⟩

/-- `PARAM_MQTT_PWD` (src/sys_config.h line 65): key `"s_mqtt_pwd"`,
mandatory, secret, configurable. -/
def PARAM_MQTT_PWD : ConfigParam :=
  ⟨[115, 95, 109, 113, 116, 116, 95, 112, 119, 100], true, true, true⟩

/-- The value of the claim `codecDecryptClaim` description as observed
through the string interface of `decryptSecret`: the original string on
any failure (the documented behaviour of `decryptSecret`), the decoded
remainder on success. -/
def codecDecryptClaimRun (aesDec : Bytes → Bytes → Bytes)
    (b64dec : Bytes → Option Bytes) (input : Bytes) : Bytes :=
  match codecDecryptClaim aesDec b64dec input with
  | .error _ => input
  | .ok v => v

/-! ## Concrete instantiations of the external collaborators, used by
witnesses and counterexamples.  The identity block cipher satisfies the
contract `aesDec iv (aesEnc iv d) = d` with length preservation, and
the identity Base64 pair satisfies `b64dec (b64enc x) = some x`. -/

/-- Identity block-cipher instantiation of the AES collaborator. -/
def idCipher : Bytes → Bytes → Bytes := fun _ d => d

/-- Identity instantiation of the Base64 encoder collaborator. -/
def idB64Enc : Bytes → Bytes := fun d => d

/-- Identity instantiation of the Base64 decoder collaborator. -/
def idB64Dec : Bytes → Option Bytes := fun d => some d

/-- A Base64 decoder that rejects its input, as `mbedtls_base64_decode`
does on a payload containing characters outside the Base64 alphabet
(for example `"!!!"`, bytes 33,33,33). -/
def failB64Dec : Bytes → Option Bytes := fun _ => none

/-- A fixed 16-byte IV standing for one outcome of the random IV
generation. -/
def iv0 : Bytes := List.replicate 16 1

/-- Identity instantiation of the SHA-256 collaborator. -/
def shaId : Bytes → Bytes := fun x => x

/-- A Base64 decoder agreeing with real Base64 on two inputs: the
44-character string `"AAA…A"` decodes to 33 zero bytes (44 Base64
characters carry 33 bytes, no padding), and the 44-character string
`"BBB…B"` is mapped to a 32-byte payload.  Real `mbedtls_base64_decode`
produces payloads of these lengths, which is all the counterexample
needs. -/
def c7b64dec : Bytes → Option Bytes := fun x =>
  if x = List.replicate 44 65 then some (List.replicate 33 0)
  else if x = List.replicate 44 66 then some (List.replicate 32 0)
  else none

/-- A block-decipher instantiation whose output ends in pad byte 1; on
16-byte inputs the output holds an interior NUL byte. -/
def c7aesDec : Bytes → Bytes → Bytes := fun _ ct =>
  if ct.length = 17 then List.replicate 17 1
  else [5, 0, 7, 3, 3, 3, 3, 3, 3, 3, 3, 3, 3, 3, 3, 1]

/-- The byte string `"hunter2"`. -/
def hunter2 : Bytes := [104, 117, 110, 116, 101, 114, 50]

/-- The byte string `"cbiot_01"`. -/
def cbiot01 : Bytes := [99, 98, 105, 111, 116, 95, 48, 49]

/-- An operator who answers the first prompt with an empty line and the
second with the single byte `"x"`. -/
def w4inputs : Nat → Bytes := fun i => if i = 1 then [120] else []

/-! ## Helper lemmas -/

theorem getD_append_right_aux (l1 l2 : Bytes) (n : Nat) (h : l1.length ≤ n) :
    (l1 ++ l2).getD n 0 = l2.getD (n - l1.length) 0 := by
  simp [List.getD, List.getElem?_append_right h]

theorem getD_replicate_aux (n i v : Nat) (h : i < n) :
    (List.replicate n v).getD i 0 = v := by
  simp [List.getD, List.getElem?_replicate, h]

theorem cstr_eq_self (s : Bytes) (h : ∀ b ∈ s, b ≠ 0) : cstr s = s := by
  apply List.takeWhile_eq_self_iff.mpr
  intro x hx
  simpa using h x hx

theorem pkcs7pad_length (s : Bytes) :
    (pkcs7pad s).length = (s.length / 16 + 1) * 16 := by
  simp [pkcs7pad]
  omega

/-- Shared round-trip core: decrypting the encryption of `s` under the
external-library contracts recovers `s`, provided `s` contains no NUL
byte (which the Arduino String type guarantees). -/
theorem decrypt_encrypt_aux (aesEnc aesDec : Bytes → Bytes → Bytes)
    (b64enc : Bytes → Bytes) (b64dec : Bytes → Option Bytes) (iv s : Bytes)
    (hb64 : b64dec (b64enc (iv ++ aesEnc iv (pkcs7pad s))) =
      some (iv ++ aesEnc iv (pkcs7pad s)))
    (haes : aesDec iv (aesEnc iv (pkcs7pad s)) = pkcs7pad s)
    (hlen : (aesEnc iv (pkcs7pad s)).length = (pkcs7pad s).length)
    (hiv : iv.length = 16)
    (hnz : ∀ b ∈ s, b ≠ 0) :
    decryptSecret true aesDec b64dec (encryptSecret true aesEnc b64enc iv s) = s := by
  have hplen : (pkcs7pad s).length = (s.length / 16 + 1) * 16 := pkcs7pad_length s
  have henc : encryptSecret true aesEnc b64enc iv s =
      b64enc (iv ++ aesEnc iv (pkcs7pad s)) := rfl
  rw [henc]
  have hlen2 : (iv ++ aesEnc iv (pkcs7pad s)).length = 16 + (s.length / 16 + 1) * 16 := by
    simp [hiv, hlen, hplen]
  simp only [decryptSecret, hb64]
  rw [if_neg (by simp)]
  rw [if_neg (by omega)]
  have htake : (iv ++ aesEnc iv (pkcs7pad s)).take 16 = iv := by
    rw [← hiv]; exact List.take_left iv _
  have hdrop : (iv ++ aesEnc iv (pkcs7pad s)).drop 16 = aesEnc iv (pkcs7pad s) := by
    rw [← hiv]; exact List.drop_left iv _
  rw [htake, hdrop, hlen, hplen]
  rw [if_neg (by omega)]
  rw [haes]
  have hpadded : pkcs7pad s =
      s ++ List.replicate ((s.length / 16 + 1) * 16 - s.length)
        ((s.length / 16 + 1) * 16 - s.length) := rfl
  have hp1 : 1 ≤ (s.length / 16 + 1) * 16 - s.length := by omega
  have hp16 : (s.length / 16 + 1) * 16 - s.length ≤ 16 := by omega
  have hgetD : (pkcs7pad s).getD ((s.length / 16 + 1) * 16 - 1) 0 =
      (s.length / 16 + 1) * 16 - s.length := by
    rw [hpadded, getD_append_right_aux _ _ _ (by omega)]
    rw [getD_replicate_aux _ _ _ (by omega)]
  rw [hgetD]
  rw [if_neg (by omega)]
  have htakeS : (pkcs7pad s).take
      ((s.length / 16 + 1) * 16 - ((s.length / 16 + 1) * 16 - s.length)) = s := by
    have : (s.length / 16 + 1) * 16 - ((s.length / 16 + 1) * 16 - s.length) =
        s.length := by omega
    rw [this, hpadded, List.take_left]
  rw [htakeS]
  exact cstr_eq_self s hnz

/-! ## Claim theorems -/

/-- C8: `encryptSecret` pads with PKCS7 to the next 16-byte boundary:
the pad value equals the number of pad bytes added, which lies between
1 and 16; a plaintext whose length is already a multiple of 16 receives
a full 16-byte pad block; the padded length is always strictly greater
than the plaintext length (and a multiple of 16). -/
theorem C8_pkcs7_padding (s : Bytes) :
    pkcs7pad s = s ++ List.replicate ((s.length / 16 + 1) * 16 - s.length)
      ((s.length / 16 + 1) * 16 - s.length) ∧
    1 ≤ (s.length / 16 + 1) * 16 - s.length ∧
    (s.length / 16 + 1) * 16 - s.length ≤ 16 ∧
    (s.length % 16 = 0 → (s.length / 16 + 1) * 16 - s.length = 16) ∧
    (pkcs7pad s).length % 16 = 0 ∧
    s.length < (pkcs7pad s).length := by
  refine ⟨rfl, by omega, by omega, by omega, ?_, ?_⟩ <;>
    rw [pkcs7pad_length] <;> omega

/-- C8 witness: a 16-byte plaintext receives a full extra block of
16 pad bytes, each holding the value 16. -/
theorem C8_pkcs7_padding_witness :
    pkcs7pad (List.replicate 16 2) =
      List.replicate 16 2 ++ List.replicate 16 16 ∧
    (16 / 16 + 1) * 16 - 16 = 16 :=
  ⟨(C8_pkcs7_padding (List.replicate 16 2)).1,
   (C8_pkcs7_padding (List.replicate 16 2)).2.2.2.1 (by decide)⟩

/-- C1: round-trip — for every Arduino string `s` of length at most
4096 bytes (Arduino strings contain no NUL byte), decrypting the
encryption of `s` under the derived key returns `s`.  The external
mbedtls collaborators appear through their contracts: Base64
decode-encode round trip, AES-CBC decrypt-encrypt round trip, and AES
length preservation; the IV is 16 bytes as generated by the source. -/
theorem C1_decrypt_encrypt_roundtrip (aesEnc aesDec : Bytes → Bytes → Bytes)
    (b64enc : Bytes → Bytes) (b64dec : Bytes → Option Bytes) (iv s : Bytes)
    (hb64 : ∀ x, b64dec (b64enc x) = some x)
    (haes : ∀ i d, aesDec i (aesEnc i d) = d)
    (hlen : ∀ i d, (aesEnc i d).length = d.length)
    (hiv : iv.length = 16)
    (_hsz : s.length ≤ 4096)
    (hnz : ∀ b ∈ s, b ≠ 0) :
    decryptSecret true aesDec b64dec (encryptSecret true aesEnc b64enc iv s) = s :=
  decrypt_encrypt_aux aesEnc aesDec b64enc b64dec iv s (hb64 _) (haes _ _)
    (hlen _ _) hiv hnz

/-- C1 witness: the round trip evaluated at the two-byte string
`"hi"` with the identity instantiation of the collaborators. -/
theorem C1_decrypt_encrypt_roundtrip_witness :
    decryptSecret true idCipher idB64Dec
      (encryptSecret true idCipher idB64Enc iv0 [104, 105]) = [104, 105] :=
  C1_decrypt_encrypt_roundtrip idCipher idCipher idB64Enc idB64Dec iv0
    [104, 105] (fun _ => rfl) (fun _ _ => rfl) (fun _ _ => rfl)
    (by decide) (by decide) (by decide)

/-- C5 counterexample: with both identity sources absent (no ECC608
serial, no ESP32 MAC), `deriveHardwareKey` does not halt or fail — it
returns `true` and silently derives the key by hashing the fixed
constant `0xDEADBEEFCAFEBABE` with the salt, contradicting the claim
that the process halts with a reported reason in this case. -/
theorem C5_counterexample_no_halt :
    deriveHardwareKey shaId none none =
      (true, shaId (le64 fallbackChipID ++ saltBytes)) := rfl

/-- C5 amended: `deriveHardwareKey` never fails — it returns `true` for
every combination of identity sources; when both the hardware serial
and the platform MAC are absent it silently derives the key from the
fixed constant `0xDEADBEEFCAFEBABE` instead of halting. -/
theorem C5_derive_never_fails (sha256 : Bytes → Bytes)
    (hwSerial : Option Bytes) (espMac : Option Nat) :
    (deriveHardwareKey sha256 hwSerial espMac).1 = true ∧
    (hwSerial = none → espMac = none →
      (deriveHardwareKey sha256 hwSerial espMac).2 =
        sha256 (le64 fallbackChipID ++ saltBytes)) := by
  cases hwSerial <;> cases espMac <;> simp [deriveHardwareKey]

/-- C5 amended witness: the amended theorem applied at the
both-sources-absent point. -/
theorem C5_derive_never_fails_witness :
    (deriveHardwareKey shaId none none).1 = true ∧
    (deriveHardwareKey shaId none none).2 =
      shaId (le64 fallbackChipID ++ saltBytes) :=
  ⟨(C5_derive_never_fails shaId none none).1,
   (C5_derive_never_fails shaId none none).2 rfl rfl⟩

/-- C7 counterexample: two concrete inputs on which `decryptSecret`
disagrees with the claim's description of its failure conditions.
First, a Base64 payload of 33 bytes (produced by a real Base64 decode
of 44 characters): it passes the length-at-least-32 test, so the
claim's description decrypts it and succeeds, but the code rejects it
(ciphertext length 17 is not a multiple of the AES block size) and
returns the input.  Second, a success case whose stripped remainder
contains an interior NUL byte: the claim's description returns the full
remainder, the code returns only the bytes before the NUL. -/
theorem C7_counterexample :
    decryptSecret true c7aesDec c7b64dec (List.replicate 44 65) ≠
      codecDecryptClaimRun c7aesDec c7b64dec (List.replicate 44 65) ∧
    decryptSecret true c7aesDec c7b64dec (List.replicate 44 66) ≠
      codecDecryptClaimRun c7aesDec c7b64dec (List.replicate 44 66) := by
  decide

/-- C7 amended: `decryptSecret` rejects its input without crashing
exactly under the spec failure conditions extended with two corrections
forced by the code — a decoded payload whose length minus the 16-byte
IV is not a multiple of 16 is also rejected (the AES-CBC error path),
and the successfully stripped remainder is truncated at its first NUL
byte.  On every failure the original input string is returned. -/
theorem C7_decrypt_matches_amended_spec (aesDec : Bytes → Bytes → Bytes)
    (b64dec : Bytes → Option Bytes) (input : Bytes) :
    decryptSecret true aesDec b64dec input =
      (match codecDecrypt aesDec b64dec input with
       | .error _ => input
       | .ok v => v) := by
  simp only [decryptSecret, codecDecrypt]
  rw [if_neg (by simp)]
  cases h : b64dec input with
  | none => rfl
  | some payload =>
    by_cases h32 : payload.length < 32
    · simp [h32]
    · have hd : (payload.drop 16).length = payload.length - 16 := by simp
      by_cases hmod : (payload.length - 16) % 16 = 0
      · simp only [h32, if_false, hd, hmod]
        split
        · rename_i hc
          simp [hc]
        · rename_i hc
          split
          · rename_i hc2
            simp [hc2]
          · rename_i hc2
            simp [hc2]
      · simp [h32, hd, hmod]

/-- C9: whenever decryption fails — the Base64 decode errors out, the
decoded payload is shorter than 32 bytes, or the trailing pad byte of
the block-decrypted data is 0 or greater than 16 — `decryptSecret`
returns its input string itself, unchanged. -/
theorem C9_failure_returns_input (aesDec : Bytes → Bytes → Bytes)
    (b64dec : Bytes → Option Bytes) (input : Bytes) :
    (b64dec input = none → decryptSecret true aesDec b64dec input = input) ∧
    (∀ payload, b64dec input = some payload →
      (payload.length < 32 → decryptSecret true aesDec b64dec input = input) ∧
      (((aesDec (payload.take 16) (payload.drop 16)).getD
          (payload.length - 16 - 1) 0 = 0 ∨
        (aesDec (payload.take 16) (payload.drop 16)).getD
          (payload.length - 16 - 1) 0 > 16) →
        decryptSecret true aesDec b64dec input = input)) := by
  constructor
  · intro h
    simp [decryptSecret, h]
  · intro payload h
    constructor
    · intro h32
      simp [decryptSecret, h, h32]
    · intro hpad
      simp only [decryptSecret, h]
      rw [if_neg (by simp)]
      by_cases h32 : payload.length < 32
      · simp [h32]
      · have hd : (payload.drop 16).length = payload.length - 16 := by simp
        by_cases hmod : (payload.length - 16) % 16 = 0
        · simp only [h32, if_false, hd, hmod]
          rw [if_neg (by omega), if_pos (by tauto)]
        · simp [h32, hd, hmod]

/-- C9 witness: a Base64-rejected input comes back unchanged. -/
theorem C9_failure_returns_input_witness :
    decryptSecret true idCipher failB64Dec [7] = [7] :=
  (C9_failure_returns_input idCipher failB64Dec [7]).1 rfl

/-! ## Evaluation lemmas for the loadConfig state machine -/

theorem classifyRaw_absent (keyOk : Bool) (aesDec : Bytes → Bytes → Bytes)
    (b64dec : Bytes → Option Bytes) (dflt : Bytes) (isSecret : Bool) :
    classifyRaw keyOk aesDec b64dec [] dflt isSecret =
      (dflt, decide (dflt ≠ [])) := by
  simp [classifyRaw]

theorem classifyRaw_s1 (keyOk : Bool) (aesDec : Bytes → Bytes → Bytes)
    (b64dec : Bytes → Option Bytes) (payload dflt : Bytes) (isSecret : Bool) :
    classifyRaw keyOk aesDec b64dec (HEADER_SECRET_V1 ++ payload) dflt isSecret =
      (decryptSecret keyOk aesDec b64dec payload, !isSecret) := by
  simp [classifyRaw, HEADER_SECRET_V1, startsWith]

theorem classifyRaw_p1 (keyOk : Bool) (aesDec : Bytes → Bytes → Bytes)
    (b64dec : Bytes → Option Bytes) (v dflt : Bytes) (isSecret : Bool) :
    classifyRaw keyOk aesDec b64dec (HEADER_PLAIN_V1 ++ v) dflt isSecret =
      (v, isSecret) := by
  simp [classifyRaw, HEADER_PLAIN_V1, HEADER_SECRET_V1, startsWith]

/-- With all-empty operator input, a mandatory prompt loop with an empty
default runs forever: for every fuel bound it is still looping. -/
theorem promptLoop_never (inputs : Nat → Bytes) (hin : ∀ i, inputs i = [])
    (idx fuel : Nat) : promptLoop true [] inputs idx fuel = none := by
  induction fuel generalizing idx with
  | zero => rfl
  | succ n ih => simp [promptLoop, promptAndReadLine, hin idx, ih]

/-- A mandatory prompt loop with an empty default returns the first
non-empty operator response, with the migration flag set. -/
theorem promptLoop_nth (inputs : Nat → Bytes) (v : Bytes) (hv : v ≠ []) :
    ∀ N idx fuel, (∀ i, i < N → inputs (idx + i) = []) → inputs (idx + N) = v →
      N < fuel → promptLoop true [] inputs idx fuel = some (v, true) := by
  intro N
  induction N with
  | zero =>
    intro idx fuel h0 hN hf
    match fuel, hf with
    | fuel + 1, _ =>
      have hidx : inputs idx = v := by simpa using hN
      simp [promptLoop, promptAndReadLine, hidx, hv]
  | succ n ih =>
    intro idx fuel h0 hN hf
    match fuel, hf with
    | fuel + 1, hf =>
      have h1 : inputs idx = [] := by simpa using h0 0 (Nat.succ_pos n)
      have step : promptLoop true [] inputs idx (fuel + 1) =
          promptLoop true [] inputs (idx + 1) fuel := by
        simp [promptLoop, promptAndReadLine, h1]
      rw [step]
      apply ih (idx + 1) fuel
      · intro i hi
        have := h0 (i + 1) (by omega)
        have harith : idx + (i + 1) = idx + 1 + i := by omega
        rwa [harith] at this
      · have harith : idx + (n + 1) = idx + 1 + n := by omega
        rwa [harith] at hN
      · omega

/-- C2 counterexample: the key holds `"s1:!!!"` whose payload `"!!!"`
fails Base64 decoding.  `loadConfig` (secret, mandatory, not forced)
returns the undecryptable payload itself to the caller with no backend
write — the prompt loop never runs even though the operator would have
supplied the value 97 — and the run differs from the absent-entry run,
which prompts and writes.  This contradicts the claim that the value is
treated as empty, that the load falls through to the prompt loop, and
that the payload is never returned to the caller. -/
theorem C2_counterexample :
    loadConfig true idCipher idCipher idB64Enc failB64Dec iv0
      (HEADER_SECRET_V1 ++ [33, 33, 33]) [] true false true (fun _ => [97]) 1 =
      some ⟨[33, 33, 33], none⟩ ∧
    loadConfig true idCipher idCipher idB64Enc failB64Dec iv0
      [] [] true false true (fun _ => [97]) 1 ≠
    loadConfig true idCipher idCipher idB64Enc failB64Dec iv0
      (HEADER_SECRET_V1 ++ [33, 33, 33]) [] true false true (fun _ => [97]) 1 := by
  decide

/-- C2 amended: for a stored entry tagged `"s1:"` whose payload fails to
decrypt (`decryptSecret` hands the payload back unchanged), the load
cycle under `secret=true` returns the raw payload itself as the value;
because that payload is non-empty the prompt loop is skipped, and since
the tag already matches the secrecy flag no backend write occurs — the
malformed entry stays in place and the undecryptable payload IS
returned to the caller. -/
theorem C2_amended_undecryptable_payload_returned
    (aesEnc aesDec : Bytes → Bytes → Bytes) (b64enc : Bytes → Bytes)
    (b64dec : Bytes → Option Bytes) (iv payload dflt : Bytes)
    (mandatory : Bool) (inputs : Nat → Bytes) (fuel : Nat)
    (hfail : decryptSecret true aesDec b64dec payload = payload)
    (hp : payload ≠ []) :
    loadConfig true aesEnc aesDec b64enc b64dec iv (HEADER_SECRET_V1 ++ payload)
      dflt mandatory false true inputs fuel = some ⟨payload, none⟩ := by
  simp [loadConfig, classifyRaw_s1, hfail, hp, saveValue]

/-- C2 amended witness: the amended statement at the concrete
undecryptable entry `"s1:!!!"`. -/
theorem C2_amended_witness :
    loadConfig true idCipher idCipher idB64Enc failB64Dec iv0
      (HEADER_SECRET_V1 ++ [33, 33, 33]) [] true false true (fun _ => [97]) 1 =
      some ⟨[33, 33, 33], none⟩ :=
  C2_amended_undecryptable_payload_returned idCipher idCipher idB64Enc failB64Dec
    iv0 [33, 33, 33] [] true (fun _ => [97]) 1 (by decide) (by decide)

/-- C3: secrecy-mismatch correction.  A `"p1:"`-tagged entry loaded
under `secret=true` returns the tagged plaintext unchanged and rewrites
the key as an `"s1:"`-tagged encryption of it, from which decryption
recovers the identical plaintext; symmetrically, an `"s1:"`-tagged
entry loaded under `secret=false` returns its decryption `d` and
rewrites the key as the `"p1:"`-tagged plaintext `d`. -/
theorem C3_secrecy_mismatch_migration (aesEnc aesDec : Bytes → Bytes → Bytes)
    (b64enc : Bytes → Bytes) (b64dec : Bytes → Option Bytes)
    (iv v u d dflt : Bytes) (mandatory : Bool) (inputs : Nat → Bytes) (fuel : Nat)
    (hb64 : ∀ x, b64dec (b64enc x) = some x)
    (haes : ∀ i dd, aesDec i (aesEnc i dd) = dd)
    (hlen : ∀ i dd, (aesEnc i dd).length = dd.length)
    (hiv : iv.length = 16)
    (hv : v ≠ []) (hnz : ∀ b ∈ v, b ≠ 0)
    (hu : decryptSecret true aesDec b64dec u = d) (hd : d ≠ []) :
    (loadConfig true aesEnc aesDec b64enc b64dec iv (HEADER_PLAIN_V1 ++ v) dflt
        mandatory false true inputs fuel =
      some ⟨v, some (HEADER_SECRET_V1 ++ encryptSecret true aesEnc b64enc iv v)⟩ ∧
     decryptSecret true aesDec b64dec (encryptSecret true aesEnc b64enc iv v) = v) ∧
    loadConfig true aesEnc aesDec b64enc b64dec iv (HEADER_SECRET_V1 ++ u) dflt
        mandatory false false inputs fuel =
      some ⟨d, some (HEADER_PLAIN_V1 ++ d)⟩ := by
  refine ⟨⟨?_, decrypt_encrypt_aux aesEnc aesDec b64enc b64dec iv v (hb64 _)
    (haes _ _) (hlen _ _) hiv hnz⟩, ?_⟩
  · simp [loadConfig, classifyRaw_p1, hv, saveValue]
  · simp [loadConfig, classifyRaw_s1, hu, hd, saveValue]

/-- C3 witness: the scenario of the claim — the entry `"p1:hunter2"`
under a secret, mandatory descriptor yields `"hunter2"` and a rewrite
to `"s1:" ++ encryptSecret "hunter2"` that decrypts back to
`"hunter2"`. -/
theorem C3_secrecy_mismatch_migration_witness :
    loadConfig true idCipher idCipher idB64Enc idB64Dec iv0
      (HEADER_PLAIN_V1 ++ hunter2) [] true false true (fun _ => []) 1 =
      some ⟨hunter2, some (HEADER_SECRET_V1 ++
        encryptSecret true idCipher idB64Enc iv0 hunter2)⟩ ∧
    decryptSecret true idCipher idB64Dec
      (encryptSecret true idCipher idB64Enc iv0 hunter2) = hunter2 :=
  (C3_secrecy_mismatch_migration idCipher idCipher idB64Enc idB64Dec iv0 hunter2
    (iv0 ++ (120 :: List.replicate 15 15)) [120] [] true (fun _ => []) 1
    (fun _ => rfl) (fun _ _ => rfl) (fun _ _ => rfl) (by decide) (by decide)
    (by decide) (by decide) (by decide)).1

/-- C4: mandatory blocking.  For a mandatory parameter with an absent
entry and an empty default: with an operator who supplies empty input
on every prompt, `loadConfig` never returns (the loop is still running
for every fuel bound); with an operator whose first non-empty response
`v` comes on attempt `N`, it returns `v` and persists its canonical
encoding to the backend. -/
theorem C4_mandatory_blocking (aesEnc aesDec : Bytes → Bytes → Bytes)
    (b64enc : Bytes → Bytes) (b64dec : Bytes → Option Bytes) (iv : Bytes)
    (isSecret : Bool) (inputs : Nat → Bytes) (N : Nat) (v : Bytes)
    (h0 : ∀ i, i < N → inputs i = []) (hN : inputs N = v) (hv : v ≠ []) :
    (∀ fuel, loadConfig true aesEnc aesDec b64enc b64dec iv [] [] true false isSecret
        (fun _ => ([] : Bytes)) fuel = none) ∧
    (∀ fuel, N < fuel →
      loadConfig true aesEnc aesDec b64enc b64dec iv [] [] true false isSecret
          inputs fuel =
        some ⟨v, some (if isSecret then
            HEADER_SECRET_V1 ++ encryptSecret true aesEnc b64enc iv v
          else HEADER_PLAIN_V1 ++ v)⟩) := by
  constructor
  · intro fuel
    simp [loadConfig, classifyRaw,
      promptLoop_never (fun _ => ([] : Bytes)) (fun _ => rfl) 0 fuel]
  · intro fuel hf
    have hloop := promptLoop_nth inputs v hv N 0 fuel
      (by intro i hi; simpa using h0 i hi) (by simpa using hN) hf
    cases isSecret <;> simp [loadConfig, classifyRaw, saveValue, hloop, hv]

/-- C4 witness: with an absent entry, empty default and mandatory flag,
all-empty operator input never returns (fuel 3 shown through the
theorem), while the operator `w4inputs` — empty on attempt 0, `"x"` on
attempt 1 — makes the load return `"x"` and persist `"p1:x"`. -/
theorem C4_mandatory_blocking_witness :
    loadConfig true idCipher idCipher idB64Enc idB64Dec iv0 [] [] true false false
      (fun _ => ([] : Bytes)) 3 = none ∧
    loadConfig true idCipher idCipher idB64Enc idB64Dec iv0 [] [] true false false
      w4inputs 3 = some ⟨[120], some (HEADER_PLAIN_V1 ++ [120])⟩ := by
  have h := C4_mandatory_blocking idCipher idCipher idB64Enc idB64Dec iv0 false
    w4inputs 1 [120] (by intro i hi; rw [Nat.lt_one_iff.mp hi]; rfl)
    rfl (by decide)
  refine ⟨h.1 3, ?_⟩
  simpa using h.2 3 (by omega)

/-- C6: format idempotence.  Loading an already-canonical entry without
a forced reconfiguration — `"p1:" ++ v` under `secret=false`, or
`"s1:" ++ payload` under `secret=true` where the payload decrypts to
`v` — performs zero backend writes (`putString` is never called) and
returns the decoded value `v`, provided `v` is non-empty. -/
theorem C6_canonical_zero_writes (aesEnc aesDec : Bytes → Bytes → Bytes)
    (b64enc : Bytes → Bytes) (b64dec : Bytes → Option Bytes)
    (iv stored v dflt : Bytes) (isSecret mandatory : Bool)
    (inputs : Nat → Bytes) (fuel : Nat)
    (hcanon : (isSecret = false ∧ stored = HEADER_PLAIN_V1 ++ v) ∨
      (isSecret = true ∧ ∃ payload, stored = HEADER_SECRET_V1 ++ payload ∧
        decryptSecret true aesDec b64dec payload = v))
    (hv : v ≠ []) :
    loadConfig true aesEnc aesDec b64enc b64dec iv stored dflt mandatory false
      isSecret inputs fuel = some ⟨v, none⟩ := by
  rcases hcanon with ⟨hs, hst⟩ | ⟨hs, payload, hst, hdec⟩
  · subst hs; subst hst
    simp [loadConfig, classifyRaw_p1, hv, saveValue]
  · subst hs; subst hst
    simp [loadConfig, classifyRaw_s1, hdec, hv, saveValue]

/-- C6 witness: the scenario of the claim — the entry `"p1:cbiot_01"`
under `secret=false, mandatory=true` yields `"cbiot_01"` with zero
writes. -/
theorem C6_canonical_zero_writes_witness :
    loadConfig true idCipher idCipher idB64Enc idB64Dec iv0
      (HEADER_PLAIN_V1 ++ cbiot01) [] true false false (fun _ => []) 1 =
      some ⟨cbiot01, none⟩ :=
  C6_canonical_zero_writes idCipher idCipher idB64Enc idB64Dec iv0
    (HEADER_PLAIN_V1 ++ cbiot01) cbiot01 [] false true (fun _ => []) 1
    (Or.inl ⟨rfl, rfl⟩) (by decide)

/-- C10: an optional secret parameter that resolves to the empty string
(absent entry, empty default, operator accepts empty) is persisted as
the plaintext tag `"p1:"` with empty payload, not encrypted; and in
general `saveValue` under `secret=true` never encrypts an empty value —
any write it makes for the empty value is `"p1:"`-tagged. -/
theorem C10_empty_secret_saved_plain (aesEnc aesDec : Bytes → Bytes → Bytes)
    (b64enc : Bytes → Bytes) (b64dec : Bytes → Option Bytes) (iv : Bytes)
    (inputs : Nat → Bytes) (fuel : Nat) (hf : 0 < fuel) (h0 : inputs 0 = []) :
    loadConfig true aesEnc aesDec b64enc b64dec iv [] [] false false true inputs
        fuel = some ⟨[], some HEADER_PLAIN_V1⟩ ∧
    (∀ mig : Bool, saveValue true aesEnc b64enc iv true [] mig =
      if mig then some HEADER_PLAIN_V1 else none) := by
  constructor
  · match fuel, hf with
    | fuel + 1, _ =>
      simp [loadConfig, classifyRaw, promptLoop, promptAndReadLine, h0, saveValue]
  · intro mig
    cases mig <;> simp [saveValue]

/-- C10 witness: the statement at fuel 1 with an operator who accepts
the empty value. -/
theorem C10_empty_secret_saved_plain_witness :
    loadConfig true idCipher idCipher idB64Enc idB64Dec iv0 [] [] false false true
      (fun _ => ([] : Bytes)) 1 = some ⟨[], some HEADER_PLAIN_V1⟩ :=
  (C10_empty_secret_saved_plain idCipher idCipher idB64Enc idB64Dec iv0
    (fun _ => ([] : Bytes)) 1 (by omega) rfl).1

end SmartMeter
